import Mathlib

/-!
Shallow embedding of `src/server.js`: a minimal Express + MySQL CRUD API over
a single `module_cards` table.  Each HTTP handler is embedded as a pure Lean
function from the database state (a list of rows plus auto-increment and
timestamp counters), the request data, and a storage-failure mode, to the
HTTP response, the new database state, and the trace of connection
open/close events produced while handling the request.
-/

namespace ModuleCards

/-- One row of the `module_cards` table. `id` is the auto-increment primary
key, `created_at` the insertion timestamp used for ordering. -/
structure Card where
  id : Nat
  title : String
  module_name : String
  module_code : String
  description : Option String
  status : String
  created_at : Nat
deriving Repr, DecidableEq

/-- The storage state: the stored rows in insertion order, the next
auto-increment id, and the next `created_at` timestamp. -/
structure DbState where
  cards : List Card
  nextId : Nat
  nextTime : Nat
deriving Repr, DecidableEq

/-- A JSON request body for POST/PUT `/cards`.  Each field is `none` when
the key is absent (or null) in the JSON object. -/
structure ReqBody where
  title : Option String := none
  module_name : Option String := none
  module_code : Option String := none
  description : Option String := none
  status : Option String := none
deriving Repr, DecidableEq

/-- JavaScript truthiness of an optional string field: `!x` is true exactly
when the field is absent/null or the empty string. -/
def truthy : Option String → Bool
  | none => false
  | some s => !(s == "")

/-- Failure mode of the storage layer for one request: everything works,
`mysql.createConnection` throws, or `connection.execute` throws. -/
inductive DbFail
  | ok
  | connect
  | query
deriving Repr, DecidableEq

/-- Connection lifecycle events emitted while handling one request. -/
inductive ConnEvent
  | connOpen
  | connClose
deriving Repr, DecidableEq

/-- A JSON response body. -/
inductive Body
  | msg (s : String)
  | msgId (s : String) (id : Nat)
  | card (c : Card)
  | cards (cs : List Card)
deriving Repr, DecidableEq

/-- An HTTP response: status code and JSON body. -/
structure Response where
  status : Nat
  body : Body
deriving Repr, DecidableEq

/-- Result of running one handler: the response, the storage state after
the request, and the connection open/close trace. -/
abbrev HandlerOut := Response × DbState × List ConnEvent

/-! ## CORS policy (src/server.js lines 16-38) -/

/-- The configured allow-list of origins (`allowedOrigins`); the two
hosting-provider entries in the source are commented out. -/
def allowedOrigins : List String :=
  ["http://localhost:3000", "http://localhost:5173"]

/-- The `origin` callback of the cors middleware: requests with no origin
header are allowed; otherwise the origin must be in `allowedOrigins`. -/
def corsAllow : Option String → Bool
  | none => true
  | some o => allowedOrigins.contains o

/-! ## Handlers -/

/-- GET `/` (health check, src/server.js lines 55-57). -/
def getRoot : Response :=
  { status := 200, body := .msg "API is running ✅" }

/-- The comparison used by `ORDER BY created_at DESC`. -/
def cardGE (a b : Card) : Prop := b.created_at ≤ a.created_at

instance : DecidableRel cardGE := fun a b => Nat.decLe b.created_at a.created_at

instance : IsTotal Card cardGE := ⟨fun a b => Nat.le_total b.created_at a.created_at⟩

instance : IsTrans Card cardGE := ⟨fun _ _ _ h1 h2 => Nat.le_trans h2 h1⟩

/-- `SELECT * FROM module_cards ORDER BY created_at DESC`. -/
def sortByCreatedDesc (l : List Card) : List Card :=
  l.insertionSort cardGE

/-- GET `/allcards` (src/server.js lines 62-80). -/
def allCards (db : DbState) (f : DbFail) : HandlerOut :=
  match f with
  | .connect =>
      (⟨500, .msg "Server error: cards cannot be fetched"⟩, db, [])
  | .query =>
      (⟨500, .msg "Server error: cards cannot be fetched"⟩, db,
        [.connOpen, .connClose])
  | .ok =>
      (⟨200, .cards (sortByCreatedDesc db.cards)⟩, db,
        [.connOpen, .connClose])

/-- `SELECT * FROM module_cards WHERE id = ?` followed by `rows[0]`. -/
def findCard (db : DbState) (id : Nat) : Option Card :=
  db.cards.find? (fun c => c.id == id)

/-- GET `/cards/:id` (src/server.js lines 85-108). -/
def getCardById (db : DbState) (id : Nat) (f : DbFail) : HandlerOut :=
  match f with
  | .connect =>
      (⟨500, .msg "Server error: cannot fetch card"⟩, db, [])
  | .query =>
      (⟨500, .msg "Server error: cannot fetch card"⟩, db,
        [.connOpen, .connClose])
  | .ok =>
      match findCard db id with
      | none => (⟨404, .msg "Card not found"⟩, db, [.connOpen, .connClose])
      | some c => (⟨200, .card c⟩, db, [.connOpen, .connClose])

/-- POST `/cards` (src/server.js lines 113-148).  The validation mirrors
`if (!title || !module_name || !module_code)`; the insert mirrors the
parameter list `[title, module_name, module_code, description ?? null,
status ?? "ACTIVE"]`. -/
def postCards (db : DbState) (b : ReqBody) (f : DbFail) : HandlerOut :=
  if !truthy b.title || !truthy b.module_name || !truthy b.module_code then
    (⟨400, .msg "Missing required fields: title, module_name, module_code"⟩,
      db, [])
  else
    match f with
    | .connect =>
        (⟨500, .msg "Server error: cannot create card"⟩, db, [])
    | .query =>
        (⟨500, .msg "Server error: cannot create card"⟩, db,
          [.connOpen, .connClose])
    | .ok =>
        let c : Card :=
          { id := db.nextId
            title := b.title.getD ""
            module_name := b.module_name.getD ""
            module_code := b.module_code.getD ""
            description := b.description
            status := b.status.getD "ACTIVE"
            created_at := db.nextTime }
        (⟨201, .msgId "Card created successfully" db.nextId⟩,
          { cards := db.cards ++ [c]
            nextId := db.nextId + 1
            nextTime := db.nextTime + 1 },
          [.connOpen, .connClose])

/-- The row transformation performed by the SQL
`UPDATE module_cards SET title = ?, module_name = ?, module_code = ?,
description = ?, status = ? WHERE id = ?`. -/
def updateRow (id : Nat) (b : ReqBody) (c : Card) : Card :=
  if c.id == id then
    { c with
      title := b.title.getD ""
      module_name := b.module_name.getD ""
      module_code := b.module_code.getD ""
      description := b.description
      status := b.status.getD "ACTIVE" }
  else c

/-- PUT `/cards/:id` (src/server.js lines 153-192). -/
def putCards (db : DbState) (id : Nat) (b : ReqBody) (f : DbFail) :
    HandlerOut :=
  if !truthy b.title || !truthy b.module_name || !truthy b.module_code then
    (⟨400, .msg "Missing required fields: title, module_name, module_code"⟩,
      db, [])
  else
    match f with
    | .connect =>
        (⟨500, .msg "Server error: cannot update card"⟩, db, [])
    | .query =>
        (⟨500, .msg "Server error: cannot update card"⟩, db,
          [.connOpen, .connClose])
    | .ok =>
        if db.cards.any (fun c => c.id == id) then
          (⟨200, .msg "Card updated successfully"⟩,
            { db with cards := db.cards.map (updateRow id b) },
            [.connOpen, .connClose])
        else
          (⟨404, .msg "Card not found"⟩, db, [.connOpen, .connClose])

/-- DELETE `/cards/:id` (src/server.js lines 197-220). -/
def deleteCards (db : DbState) (id : Nat) (f : DbFail) : HandlerOut :=
  match f with
  | .connect =>
      (⟨500, .msg "Server error: cannot delete card"⟩, db, [])
  | .query =>
      (⟨500, .msg "Server error: cannot delete card"⟩, db,
        [.connOpen, .connClose])
  | .ok =>
      if db.cards.any (fun c => c.id == id) then
        (⟨200, .msg "Card deleted successfully"⟩,
          { db with cards := db.cards.filter (fun c => !(c.id == id)) },
          [.connOpen, .connClose])
      else
        (⟨404, .msg "Card not found"⟩, db, [.connOpen, .connClose])

/-- A connection trace is well scoped when it is either empty (no
connection was opened) or a single open followed by its close, and in
particular every open is matched by a close, so no connection is left
open when the request completes. -/
def wellScoped (t : List ConnEvent) : Prop :=
  (t = [] ∨ t = [ConnEvent.connOpen, ConnEvent.connClose]) ∧
  t.count ConnEvent.connOpen = t.count ConnEvent.connClose

/-! ## Theorems -/

/-- A truthy optional field is `some` of its default-extracted value. -/
theorem truthy_some_getD {o : Option String} (h : truthy o = true) :
    o = some (o.getD "") := by
  cases o with
  | none => simp [truthy] at h
  | some a => rfl

/-- C1: For every POST /cards request in which any of title, module_name,
module_code is absent, the handler returns status 400 and performs no
storage operation, so no Card is persisted and the stored state is
unchanged. -/
theorem post_missing_required_field (db : DbState) (b : ReqBody) (f : DbFail)
    (h : b.title = none ∨ b.module_name = none ∨ b.module_code = none) :
    (postCards db b f).1.status = 400 ∧ (postCards db b f).2.1 = db ∧
    (postCards db b f).2.2 = [] := by
  rcases h with h | h | h <;> simp [postCards, truthy, h]

theorem post_missing_required_field_witness :
    (postCards ⟨[], 1, 0⟩ ⟨none, some "Computer Science", some "CS101", none, none⟩
        DbFail.ok).1.status = 400 ∧
    (postCards ⟨[], 1, 0⟩ ⟨none, some "Computer Science", some "CS101", none, none⟩
        DbFail.ok).2.1 = ⟨[], 1, 0⟩ ∧
    (postCards ⟨[], 1, 0⟩ ⟨none, some "Computer Science", some "CS101", none, none⟩
        DbFail.ok).2.2 = [] :=
  post_missing_required_field ⟨[], 1, 0⟩
    ⟨none, some "Computer Science", some "CS101", none, none⟩ DbFail.ok (Or.inl rfl)

/-- C2 counterexample: a POST /cards request with all three required
fields present but title the empty string is rejected with 400, not 201,
even though the storage insert would succeed. -/
theorem post_present_empty_title_rejected :
    (postCards ⟨[], 1, 0⟩ ⟨some "", some "Computer Science", some "CS101", none, none⟩
        DbFail.ok).1.status = 400 ∧ (400 : Nat) ≠ 201 := by decide

/-- C2 amended: for every POST /cards request with title, module_name and
module_code all present and non-empty (JS-truthy) and the storage insert
succeeding, the handler returns 201 with the generated id and appends the
row, with description defaulted to null when omitted and status defaulted
to "ACTIVE" when omitted. -/
theorem post_valid_fields_created (db : DbState) (b : ReqBody)
    (h1 : truthy b.title = true) (h2 : truthy b.module_name = true)
    (h3 : truthy b.module_code = true) :
    (postCards db b DbFail.ok).1.status = 201 ∧
    (postCards db b DbFail.ok).1.body
      = Body.msgId "Card created successfully" db.nextId ∧
    ∃ c : Card,
      (postCards db b DbFail.ok).2.1.cards = db.cards ++ [c] ∧
      c.id = db.nextId ∧
      b.title = some c.title ∧
      b.module_name = some c.module_name ∧
      b.module_code = some c.module_code ∧
      c.description = b.description ∧
      (b.status = none → c.status = "ACTIVE") ∧
      (∀ s, b.status = some s → c.status = s) := by
  have hv : (!truthy b.title || !truthy b.module_name || !truthy b.module_code)
      = false := by simp [h1, h2, h3]
  refine ⟨by simp [postCards, hv], by simp [postCards, hv], ?_⟩
  refine ⟨{ id := db.nextId, title := b.title.getD "",
            module_name := b.module_name.getD "",
            module_code := b.module_code.getD "",
            description := b.description,
            status := b.status.getD "ACTIVE",
            created_at := db.nextTime },
          by simp [postCards, hv], rfl,
          truthy_some_getD h1, truthy_some_getD h2, truthy_some_getD h3,
          rfl, ?_, ?_⟩
  · intro h; rw [h]; rfl
  · intro s h; rw [h]; rfl

theorem post_valid_fields_created_witness :
    (postCards ⟨[], 1, 0⟩
        ⟨some "Intro to CS", some "Computer Science", some "CS101", none, none⟩
        DbFail.ok).1.status = 201 :=
  (post_valid_fields_created ⟨[], 1, 0⟩
    ⟨some "Intro to CS", some "Computer Science", some "CS101", none, none⟩
    (by decide) (by decide) (by decide)).1

/-- C4: for every GET /cards/:id request where no stored Card has the
given id the handler returns 404; where the query finds a Card it returns
200 with that single Card as the body. -/
theorem getById_result (db : DbState) (id : Nat) :
    ((∀ c ∈ db.cards, c.id ≠ id) →
      (getCardById db id DbFail.ok).1.status = 404) ∧
    (∀ c, findCard db id = some c →
      c ∈ db.cards ∧ c.id = id ∧
      (getCardById db id DbFail.ok).1.status = 200 ∧
      (getCardById db id DbFail.ok).1.body = Body.card c) := by
  constructor
  · intro h
    have hf : findCard db id = none := by
      rw [findCard, List.find?_eq_none]
      intro x hx
      simp [h x hx]
    simp [getCardById, hf]
  · intro c hc
    refine ⟨List.mem_of_find?_eq_some hc, ?_, ?_, ?_⟩
    · simpa using List.find?_some hc
    · simp [getCardById, hc]
    · simp [getCardById, hc]

theorem getById_result_witness :
    (getCardById ⟨[], 1, 0⟩ 5 DbFail.ok).1.status = 404 :=
  (getById_result ⟨[], 1, 0⟩ 5).1 (by simp)

/-- C6: For every GET /allcards request with the storage query succeeding,
the handler returns status 200 with all stored Cards (a permutation of the
stored list: no pagination or result limit) ordered by created_at
descending. -/
theorem allcards_sorted_desc (db : DbState) :
    (allCards db DbFail.ok).1.status = 200 ∧
    ∃ l, (allCards db DbFail.ok).1.body = Body.cards l ∧
      l.Perm db.cards ∧
      List.Sorted (fun a b : Card => b.created_at ≤ a.created_at) l := by
  refine ⟨rfl, sortByCreatedDesc db.cards, rfl, List.perm_insertionSort _ _, ?_⟩
  exact List.sorted_insertionSort cardGE db.cards

/-- C7 counterexample: origins that are subdomains of the hosting providers
named (commented out) in the source are rejected by the cors origin
callback, so no wildcard suffix pattern is accepted. -/
theorem cors_rejects_provider_subdomains :
    corsAllow (some "https://myapp.vercel.app") = false ∧
    corsAllow (some "https://myapp.onrender.com") = false := by decide

/-- C7 amended: the cross-origin policy accepts a request exactly when it
carries no origin header or its origin is in the configured allow-list;
there is no wildcard suffix acceptance. -/
theorem cors_allowlist_and_no_origin (o : String) :
    corsAllow none = true ∧
    (o ∈ allowedOrigins → corsAllow (some o) = true) ∧
    (corsAllow (some o) = true → o ∈ allowedOrigins) := by
  refine ⟨rfl, ?_, ?_⟩ <;> simp [corsAllow]

theorem cors_allowlist_and_no_origin_witness :
    corsAllow (some "http://localhost:3000") = true :=
  (cors_allowlist_and_no_origin "http://localhost:3000").2.1 (by decide)

/-- C8 counterexample: the GET / handler's body is
{message: "API is running ✅"}, not {message: "API is running"}. -/
theorem root_message_has_suffix :
    getRoot.body = Body.msg "API is running ✅" ∧
    getRoot.body ≠ Body.msg "API is running" := by
  exact ⟨rfl, by decide⟩

/-- C8 amended: for every GET / request, the handler returns status 200
with body {message: "API is running ✅"}. -/
theorem root_health_check :
    getRoot.status = 200 ∧ getRoot.body = Body.msg "API is running ✅" :=
  ⟨rfl, rfl⟩

/-- C3: for every PUT /cards/:id request passing the presence validation,
the handler performs a full update of all five editable columns of the
row with that id (preserving id and created_at and leaving other rows
unchanged), returning 200 on success and 404 when zero rows matched. -/
theorem put_full_update (db : DbState) (id : Nat) (b : ReqBody)
    (h1 : truthy b.title = true) (h2 : truthy b.module_name = true)
    (h3 : truthy b.module_code = true) :
    ((∃ c ∈ db.cards, c.id = id) →
      (putCards db id b DbFail.ok).1.status = 200 ∧
      List.Forall₂ (fun old upd : Card =>
          (old.id = id →
            upd.title = b.title.getD "" ∧
            upd.module_name = b.module_name.getD "" ∧
            upd.module_code = b.module_code.getD "" ∧
            upd.description = b.description ∧
            upd.status = b.status.getD "ACTIVE" ∧
            upd.id = old.id ∧ upd.created_at = old.created_at) ∧
          (old.id ≠ id → upd = old))
        db.cards (putCards db id b DbFail.ok).2.1.cards) ∧
    ((∀ c ∈ db.cards, c.id ≠ id) →
      (putCards db id b DbFail.ok).1.status = 404 ∧
      (putCards db id b DbFail.ok).2.1 = db) := by
  have hv : (!truthy b.title || !truthy b.module_name || !truthy b.module_code)
      = false := by simp [h1, h2, h3]
  constructor
  · rintro ⟨c, hc, hcid⟩
    have ha : db.cards.any (fun c => c.id == id) = true :=
      List.any_eq_true.mpr ⟨c, hc, by simp [hcid]⟩
    refine ⟨by simp [putCards, hv, ha], ?_⟩
    have hcards : (putCards db id b DbFail.ok).2.1.cards
        = db.cards.map (updateRow id b) := by
      simp [putCards, hv, ha]
    rw [hcards, List.forall₂_map_right_iff, List.forall₂_same]
    intro x _
    by_cases hxid : x.id = id
    · exact ⟨fun _ => by simp [updateRow, hxid], fun hne => absurd hxid hne⟩
    · exact ⟨fun hx => absurd hx hxid, fun _ => by simp [updateRow, hxid]⟩
  · intro h
    have ha : db.cards.any (fun c => c.id == id) = false := by
      rw [Bool.eq_false_iff]
      intro hcon
      obtain ⟨x, hx, hxe⟩ := List.any_eq_true.mp hcon
      exact h x hx (by simpa using hxe)
    constructor <;> simp [putCards, hv, ha]

theorem put_full_update_witness :
    (putCards ⟨[⟨1, "T", "N", "C", some "d", "OLD", 0⟩], 2, 1⟩ 1
        ⟨some "T2", some "N2", some "C2", none, none⟩ DbFail.ok).1.status = 200 :=
  ((put_full_update ⟨[⟨1, "T", "N", "C", some "d", "OLD", 0⟩], 2, 1⟩ 1
      ⟨some "T2", some "N2", some "C2", none, none⟩
      (by decide) (by decide) (by decide)).1
    ⟨⟨1, "T", "N", "C", some "d", "OLD", 0⟩, by decide, rfl⟩).1

/-- C5: for every DELETE /cards/:id request where a stored Card has the
given id, the handler removes that row and returns 200, and a subsequent
listAll no longer includes any Card with that id; where no row matched it
returns 404 and the state is unchanged. -/
theorem delete_removes_row (db : DbState) (id : Nat) :
    ((∃ c ∈ db.cards, c.id = id) →
      (deleteCards db id DbFail.ok).1.status = 200 ∧
      ∀ l, (allCards (deleteCards db id DbFail.ok).2.1 DbFail.ok).1.body
          = Body.cards l →
        ∀ c ∈ l, c.id ≠ id) ∧
    ((∀ c ∈ db.cards, c.id ≠ id) →
      (deleteCards db id DbFail.ok).1.status = 404 ∧
      (deleteCards db id DbFail.ok).2.1 = db) := by
  constructor
  · rintro ⟨c, hc, hcid⟩
    have ha : db.cards.any (fun c => c.id == id) = true :=
      List.any_eq_true.mpr ⟨c, hc, by simp [hcid]⟩
    refine ⟨by simp [deleteCards, ha], ?_⟩
    intro l hl x hx
    simp only [allCards, Body.cards.injEq] at hl
    subst hl
    have hx' : x ∈ (deleteCards db id DbFail.ok).2.1.cards :=
      (List.perm_insertionSort cardGE _).mem_iff.mp hx
    have hcards : (deleteCards db id DbFail.ok).2.1.cards
        = db.cards.filter (fun c => !(c.id == id)) := by
      simp [deleteCards, ha]
    rw [hcards] at hx'
    simpa using (List.mem_filter.mp hx').2
  · intro h
    have ha : db.cards.any (fun c => c.id == id) = false := by
      rw [Bool.eq_false_iff]
      intro hcon
      obtain ⟨x, hx, hxe⟩ := List.any_eq_true.mp hcon
      exact h x hx (by simpa using hxe)
    constructor <;> simp [deleteCards, ha]

theorem delete_removes_row_witness :
    (deleteCards ⟨[⟨1, "T", "N", "C", none, "ACTIVE", 0⟩], 2, 1⟩ 1
        DbFail.ok).1.status = 200 :=
  ((delete_removes_row ⟨[⟨1, "T", "N", "C", none, "ACTIVE", 0⟩], 2, 1⟩ 1).1
    ⟨⟨1, "T", "N", "C", none, "ACTIVE", 0⟩, by decide, rfl⟩).1

/-- C9: every operation's connection trace is well scoped on every input
and every exit path (success, validation failure, connection failure,
query failure): at most one connection is opened, and every opened
connection is closed, so a connection is never left open after the
request completes. -/
theorem connection_always_released (db : DbState) (id : Nat) (b : ReqBody)
    (f : DbFail) :
    wellScoped (allCards db f).2.2 ∧
    wellScoped (getCardById db id f).2.2 ∧
    wellScoped (postCards db b f).2.2 ∧
    wellScoped (putCards db id b f).2.2 ∧
    wellScoped (deleteCards db id f).2.2 := by
  refine ⟨?_, ?_, ?_, ?_, ?_⟩
  · cases f <;> simp [allCards, wellScoped]
  · cases f with
    | ok =>
        rcases hf : findCard db id with _ | c <;>
          simp [getCardById, hf, wellScoped]
    | connect => simp [getCardById, wellScoped]
    | query => simp [getCardById, wellScoped]
  · by_cases hv : (!truthy b.title || !truthy b.module_name
        || !truthy b.module_code) = true
    · simp [postCards, hv, wellScoped]
    · cases f <;> simp [postCards, hv, wellScoped]
  · by_cases hv : (!truthy b.title || !truthy b.module_name
        || !truthy b.module_code) = true
    · simp [putCards, hv, wellScoped]
    · cases f with
      | ok =>
          by_cases ha : db.cards.any (fun c => c.id == id) = true <;>
            simp [putCards, hv, ha, wellScoped]
      | connect => simp [putCards, hv, wellScoped]
      | query => simp [putCards, hv, wellScoped]
  · cases f with
    | ok =>
        by_cases ha : db.cards.any (fun c => c.id == id) = true <;>
          simp [deleteCards, ha, wellScoped]
    | connect => simp [deleteCards, wellScoped]
    | query => simp [deleteCards, wellScoped]

/-- C10: for every PUT /cards/:id request passing validation in which the
optional fields are omitted, every row with that id in the resulting
state has description null and status "ACTIVE", overwriting any
previously stored values. -/
theorem put_omitted_fields_reset (db : DbState) (id : Nat) (b : ReqBody)
    (c : Card)
    (h1 : truthy b.title = true) (h2 : truthy b.module_name = true)
    (h3 : truthy b.module_code = true)
    (hd : b.description = none) (hs : b.status = none)
    (hc : c ∈ (putCards db id b DbFail.ok).2.1.cards) (hcid : c.id = id) :
    c.description = none ∧ c.status = "ACTIVE" := by
  have hv : (!truthy b.title || !truthy b.module_name || !truthy b.module_code)
      = false := by simp [h1, h2, h3]
  by_cases ha : db.cards.any (fun c => c.id == id) = true
  · simp [putCards, hv, ha] at hc
    obtain ⟨x, hx, hxe⟩ := hc
    by_cases hxid : x.id = id
    · rw [← hxe]
      simp [updateRow, hxid, hd, hs]
    · rw [← hxe] at hcid
      simp [updateRow, hxid] at hcid
  · simp [putCards, hv, ha] at hc
    exact absurd (List.any_eq_true.mpr ⟨c, hc, by simp [hcid]⟩) ha

theorem put_omitted_fields_reset_witness :
    (⟨1, "T2", "N2", "C2", none, "ACTIVE", 0⟩ : Card).description = none ∧
    (⟨1, "T2", "N2", "C2", none, "ACTIVE", 0⟩ : Card).status = "ACTIVE" :=
  put_omitted_fields_reset ⟨[⟨1, "T", "N", "C", some "old", "OLD", 0⟩], 2, 1⟩ 1
    ⟨some "T2", some "N2", some "C2", none, none⟩
    ⟨1, "T2", "N2", "C2", none, "ACTIVE", 0⟩
    (by decide) (by decide) (by decide) rfl rfl (by decide) rfl

end ModuleCards
